import Mathlib

/-!
# Verification of the notion-notifyer task pipeline

Shallow embedding of the Go sources of `rainierrr/notion-notifyer`.

The repository contains several near-duplicate historical variants of the
same program.  We embed the two main ones:

* namespace `NN` — the self-contained program in `main.go` (first document)
  and its English twin `unnamed/part_001`: `Task` with a string `Workload`
  and per-task `NotifyDays`, `filterTasks`/`shouldNotify`/`isDueToday`,
  midnight-anchored `groupTasksByUrgency`, `sortTasks`, the plain-string
  `formatDueDate`, and the `appendSection` detail-line construction with
  memo escaping and 150/2900 truncation limits.

* namespace `SL` — the later variant in `slack.go` (second document),
  `notion.go` and the cobra entry point in `main.go` (second document):
  `Task` with a numeric `Workload`, 23:59:59-anchored
  `groupTasksByUrgency`, the error-returning `formatDueDate` with
  `timeFormat`, 1000/3000 truncation limits, and the fetch loop of
  `notion.go`.

## Time model

Go `time.Time` values in this program all live in one fixed-offset
location.  We model an instant as the number of seconds since
0001-01-01 00:00:00 local time, so Go's zero `Time` is `0` and
`t.IsZero()` is `t = 0`.  `time.Date(y, m, d, 0, 0, 0, 0, loc)` applied
to the fields of `t` is truncation to midnight, and `AddDate(0, 0, n)`
on a midnight value adds `n` whole days.  Calendar fields (`Year`,
`Month`, `Day`) are recovered with the standard civil-calendar
conversion.  Strings are modelled with Lean `String`; lengths and
slicing count characters where Go counts bytes — the two agree on the
ASCII inputs used in all concrete witnesses.
-/

def secPerDay : Nat := 86400

/-- `time.Date(t.Year(), t.Month(), t.Day(), 0, 0, 0, 0, loc)`:
truncation of an instant to midnight of its calendar day. -/
def midnight (t : Nat) : Nat := t / secPerDay * secPerDay

/-- `t.Hour()`. -/
def hourOf (t : Nat) : Nat := t % secPerDay / 3600

/-- `t.Minute()`. -/
def minuteOf (t : Nat) : Nat := t % 3600 / 60

/-- Gregorian `(year, month, day)` of a day count since 0001-01-01
(proleptic civil calendar, standard era-based conversion). -/
def civilFromDays (z : Nat) : Nat × Nat × Nat :=
  let z := z + 306
  let era := z / 146097
  let doe := z % 146097
  let yoe := (doe - doe / 1460 + doe / 36524 - doe / 146096) / 365
  let doy := doe - (365 * yoe + yoe / 4 - yoe / 100)
  let mp := (5 * doy + 2) / 153
  let d := doy - (153 * mp + 2) / 5 + 1
  let m := if mp < 10 then mp + 3 else mp - 9
  (yoe + era * 400 + (if m ≤ 2 then 1 else 0), m, d)

/-- Inverse of `civilFromDays`; used only to write concrete instants. -/
def daysFromCivil (y m d : Nat) : Nat :=
  let y := if m ≤ 2 then y - 1 else y
  let era := y / 400
  let yoe := y % 400
  let mp := (m + 9) % 12
  let doy := (153 * mp + 2) / 5 + d - 1
  era * 146097 + (yoe * 365 + yoe / 4 - yoe / 100 + doy) - 306

/-- Concrete local instant, for tests and witnesses. -/
def mkTime (y m d hh mm : Nat) : Nat :=
  daysFromCivil y m d * secPerDay + hh * 3600 + mm * 60

def yearOf (t : Nat) : Nat := (civilFromDays (t / secPerDay)).1

def monthOf (t : Nat) : Nat := (civilFromDays (t / secPerDay)).2.1

def dayOf (t : Nat) : Nat := (civilFromDays (t / secPerDay)).2.2

def pad2 (n : Nat) : String := if n < 10 then "0" ++ toString n else toString n

def pad4 (n : Nat) : String :=
  if n < 10 then "000" ++ toString n
  else if n < 100 then "00" ++ toString n
  else if n < 1000 then "0" ++ toString n
  else toString n

/-- Go layout `"2006-01-02"`. -/
def fmtYMD (t : Nat) : String :=
  pad4 (yearOf t) ++ "-" ++ pad2 (monthOf t) ++ "-" ++ pad2 (dayOf t)

/-- Go layout `"15:04"`. -/
def fmtHM (t : Nat) : String := pad2 (hourOf t) ++ ":" ++ pad2 (minuteOf t)

/-- `startT.Year() == endT.Year() && startT.Month() == endT.Month() &&
startT.Day() == endT.Day()`. -/
def sameCivilDay (a b : Nat) : Bool :=
  yearOf a == yearOf b && monthOf a == monthOf b && dayOf a == dayOf b

/-- Go slice `s[:n]` (character-counted; agrees with Go's byte count on
ASCII strings). -/
def strTake (s : String) (n : Nat) : String := (s.toList.take n).asString

namespace NN

/-- `Task` of `main.go` (first document) / `unnamed/part_001`. -/
structure Task where
  id : String
  title : String
  dueStart : Option Nat
  dueEnd : Option Nat
  priority : String
  type : String
  scheduleStatus : String
  workload : String
  memo : String
  url : String
  notifyDays : Nat
deriving DecidableEq, Repr

/-- `defaultNotifyDays = 3`. -/
def defaultNotifyDays : Nat := 3

/-- The `priorityOrder` map of `main.go`; a missing key yields Go's zero
value `0`. -/
def priorityOrder (s : String) : Nat :=
  if s = "High" then 1
  else if s = "Medium" then 2
  else if s = "Low" then 3
  else if s = "" then 4
  else 0

/-- `getTargetDueDate`: effective due date, `DueEnd` preferred, then
`DueStart`. -/
def getTargetDueDate (task : Task) : Option Nat :=
  match task.dueEnd with
  | some e => some e
  | none =>
    match task.dueStart with
    | some s => some s
    | none => none

/-- The `less` closure of `sortTasks` in `main.go`: priority rank first,
then due date; a task with a due date sorts before one without. -/
def taskLess (a b : Task) : Bool :=
  let priI := priorityOrder a.priority
  let priJ := priorityOrder b.priority
  if priI ≠ priJ then decide (priI < priJ)
  else
    match getTargetDueDate a, getTargetDueDate b with
    | some dueI, some dueJ => decide (dueI < dueJ)
    | some _, none => true
    | none, _ => false

/-- Non-strict order corresponding to `taskLess`; `sort.SliceStable`
with `less` is the stable sort by `fun a b => !(less b a)`. -/
def taskLE (a b : Task) : Bool := ! taskLess b a

/-- `sortTasks` of `main.go`: `sort.SliceStable` over `taskLess`. -/
def sortTasks (tasks : List Task) : List Task := tasks.mergeSort taskLE

/-- `groupTasksByUrgency` of `main.go`: midnight-anchored boundaries,
due dates truncated to midnight, buckets `(today, threeDays, sevenDays)`. -/
def groupTasksByUrgency (tasks : List Task) (now : Nat) :
    List Task × List Task × List Task :=
  let todayBoundary := midnight now
  let threeDaysBoundary := todayBoundary + 3 * secPerDay
  let sevenDaysBoundary := todayBoundary + 7 * secPerDay
  match tasks with
  | [] => ([], [], [])
  | task :: rest =>
    let r := groupTasksByUrgency rest now
    match getTargetDueDate task with
    | none => r
    | some dueDate =>
      let dueDateTime := midnight dueDate
      if dueDateTime ≤ todayBoundary then (task :: r.1, r.2.1, r.2.2)
      else if dueDateTime ≤ threeDaysBoundary then (r.1, task :: r.2.1, r.2.2)
      else if dueDateTime ≤ sevenDaysBoundary then (r.1, r.2.1, task :: r.2.2)
      else r

/-- `shouldNotify` of `main.go`. -/
def shouldNotify (task : Task) (now : Nat) : Bool :=
  match getTargetDueDate task with
  | none => false
  | some targetDate =>
    let today := midnight now
    let dueDate := midnight targetDate
    if dueDate < today then false
    else decide ((dueDate - today) / secPerDay ≤ task.notifyDays)

/-- `isDueToday` of `main.go`. -/
def isDueToday (task : Task) (now : Nat) : Bool :=
  match getTargetDueDate task with
  | none => false
  | some targetDate => midnight targetDate == midnight now

/-- `filterTasks` of `main.go`. -/
def filterTasks (tasks : List Task) (now : Nat) : List Task :=
  let currentHour := hourOf now
  let isUrgentNotificationTime := currentHour == 13 || currentHour == 20
  match tasks with
  | [] => []
  | task :: rest =>
    let r := filterTasks rest now
    if shouldNotify task now then
      if isUrgentNotificationTime then
        if isDueToday task now then task :: r else r
      else task :: r
    else r

end NN

namespace NN

/-- `formatDueDate` of `main.go` (first document) / `unnamed/part_001`:
plain-string due-date rendering with `"N/A"` fallback. -/
def formatDueDate (task : Task) : String :=
  match task.dueEnd with
  | some endT =>
    match task.dueStart with
    | some startT =>
      if startT ≠ endT then
        if sameCivilDay startT endT then
          let startStr :=
            if (startT ≠ 0 ∧ hourOf startT ≠ 0) ∨ minuteOf startT ≠ 0
            then fmtHM startT else ""
          let endStr :=
            if (endT ≠ 0 ∧ hourOf endT ≠ 0) ∨ minuteOf endT ≠ 0
            then fmtHM endT else ""
          if startStr ≠ "" ∧ endStr ≠ "" then
            fmtYMD endT ++ " (" ++ startStr ++ " ~ " ++ endStr ++ ")"
          else if endStr ≠ "" then fmtYMD endT ++ " (~" ++ endStr ++ ")"
          else if startStr ≠ "" then fmtYMD endT ++ " (" ++ startStr ++ "~)"
          else fmtYMD endT
        else fmtYMD startT ++ " ~ " ++ fmtYMD endT
      else fmtYMD endT
    | none => fmtYMD endT
  | none =>
    match task.dueStart with
    | some startT => fmtYMD startT
    | none => "N/A"

/-- `strings.ReplaceAll s c ("\\" ++ c)` for a one-character pattern `c`:
every occurrence of `c` becomes `\c`. -/
def escChar (c : Char) : List Char → List Char
  | [] => []
  | x :: xs => if x = c then '\\' :: c :: escChar c xs else x :: escChar c xs

/-- The memo-escaping block of `appendSection` in `unnamed/part_001`:
the four `ReplaceAll` passes chained on `escapedMemo`. -/
def escapeMemo (s : String) : String :=
  (escChar '`' (escChar '~' (escChar '_' (escChar '*' s.toList)))).asString

/-- The memo-escaping block of `appendSection` in `main.go` (first
document): there every `ReplaceAll` after the first reads
`truncatedMemo` again instead of the previous result, so only the last
(backtick) pass reaches the final value of `escapedMemo`. -/
def escapedMemoMain (truncatedMemo : String) : String :=
  let e1 := (escChar '*' truncatedMemo.toList).asString
  let e2 := (escChar '_' truncatedMemo.toList).asString
  let e3 := (escChar '~' truncatedMemo.toList).asString
  let e4 := (escChar '`' truncatedMemo.toList).asString
  let _ := e1
  let _ := e2
  let _ := e3
  e4

/-- Memo truncation in `appendSection` (`maxMemoLength = 150`). -/
def truncatedMemo (memo : String) : String :=
  if memo.length > 150 then strTake memo 150 ++ "..." else memo

/-- The per-priority marker of `appendSection`. -/
def priorityEmoji (p : String) : String :=
  if p = "High" then "🔴 "
  else if p = "Medium" then "🔵 "
  else if p = "Low" then "⚫ "
  else ""

/-- The `details` list built for one task inside `appendSection`
(`unnamed/part_001` labels; the chained escaping of that variant). -/
def details (task : Task) : List String :=
  ["*Due:* " ++ formatDueDate task]
  ++ (if task.priority ≠ "" then
        ["*Priority:* " ++ priorityEmoji task.priority ++ task.priority] else [])
  ++ (if task.type ≠ "" then ["*Type:* " ++ task.type] else [])
  ++ (if task.scheduleStatus ≠ "" then ["*Status:* " ++ task.scheduleStatus] else [])
  ++ (if task.workload ≠ "" then ["*Workload:* " ++ task.workload] else [])
  ++ (if task.memo ≠ "" then
        ["*Memo:* " ++ escapeMemo (truncatedMemo task.memo)] else [])

/-- `detailsText` for one task in `appendSection`: fields joined with
`" | "`, truncated at 2900 with a trailing ellipsis marker. -/
def detailsText (task : Task) : String :=
  let t := String.intercalate " | " (details task)
  if t.length > 2900 then strTake t 2900 ++ "..." else t

/-- `appendTasksToString` of `unnamed/part_001` (fallback text). -/
def appendTasksToString (title : String) (tasks : List Task) : String :=
  if tasks.length > 0 then
    "\n*" ++ title ++ "*\n" ++ String.join (tasks.map fun task =>
      "- *" ++ task.title ++ "* (Due: " ++ formatDueDate task
      ++ (if task.priority ≠ "" then ", Priority: " ++ task.priority else "")
      ++ ") <" ++ task.url ++ ">\n")
  else ""

/-- `formatSlackMessage` of `unnamed/part_001`. -/
def formatSlackMessage (tasks : List Task) (now : Nat) : String :=
  let g := groupTasksByUrgency tasks now
  let today := sortTasks g.1
  let threeDays := sortTasks g.2.1
  let sevenDays := sortTasks g.2.2
  "Notion Task Reminders (" ++ fmtYMD now ++ ")\n"
  ++ appendTasksToString "Due Today" today
  ++ appendTasksToString "Due Within 3 Days" threeDays
  ++ appendTasksToString "Due Within 7 Days" sevenDays

/-- Outcome of one run of the program, as far as delivery is concerned. -/
inductive RunOutcome where
  /-- A log line and `return`: process exit code zero, the delivery call
  (`slackClient.PostMessage`) is never made. -/
  | exitZeroNoSend
  /-- `slackClient.PostMessage` is invoked (with the fallback text). -/
  | send (message : String)
deriving DecidableEq, Repr

/-- The post-fetch logic of `main` in `main.go` (first document): filter,
return early when nothing is to be notified or the message is empty,
otherwise post. -/
def mainRun (fetched : List Task) (now : Nat) : RunOutcome :=
  let tasksToNotify := filterTasks fetched now
  if tasksToNotify.length = 0 then .exitZeroNoSend
  else
    let message := formatSlackMessage tasksToNotify now
    if message = "" then .exitZeroNoSend
    else .send message

end NN

/-- A typed Notion property value (`notionapi` property kinds used by
`parseNotionPage`).  A page property of any other kind fails the Go type
assertion and is ignored. -/
inductive NProp where
  /-- `TitleProperty`: the `Text.Content` of each rich-text part. -/
  | titleProp (parts : List String)
  /-- `DateProperty`: `nil`, or a pair of optional start and end instants. -/
  | dateProp (date : Option (Option Nat × Option Nat))
  /-- `SelectProperty`: `Select.Name`. -/
  | selectProp (name : String)
  /-- `StatusProperty`: `Status.Name`. -/
  | statusProp (name : String)
  /-- `RichTextProperty`: the `Text.Content` of each part. -/
  | richTextProp (parts : List String)
deriving DecidableEq, Repr

/-- A fetched Notion page: identifier, URL and its property bag
(modelled as an association list in iteration order). -/
structure NPage where
  id : String
  url : String
  properties : List (String × NProp)
deriving DecidableEq, Repr

namespace NN

/-- One iteration of the property `switch` in `parseNotionPage`
(`main.go`, first document). -/
def applyProp (task : Task) (prop : String × NProp) : Task :=
  match prop with
  | ("Name", .titleProp parts) =>
    match parts with
    | content :: _ => { task with title := content }
    | [] => task
  | ("Due", .dateProp d) =>
    match d with
    | some (s, e) => { task with dueStart := s, dueEnd := e }
    | none => task
  | ("Priority", .selectProp name) =>
    if name ≠ "" then { task with priority := name } else task
  | ("Type", .selectProp name) =>
    if name ≠ "" then { task with type := name } else task
  | ("Schedule Status", .statusProp name) =>
    if name ≠ "" then { task with scheduleStatus := name } else task
  | ("Workload", .selectProp name) =>
    if name ≠ "" then { task with workload := name } else task
  | ("Memo", .richTextProp parts) =>
    if parts.length > 0 then { task with memo := String.intercalate "\n" parts }
    else task
  | ("通知日数", .selectProp name) =>
    if name ≠ "" then
      match name.toNat? with
      | some days =>
        if days = 1 ∨ days = 3 ∨ days = 7 then { task with notifyDays := days }
        else task
      | none => task
    else task
  | _ => task

/-- `parseNotionPage` of `main.go` (first document): populate the task
from the property bag, then reject it (`nil`, here `none`) when the
title is empty or both due dates are absent. -/
def parseNotionPage (page : NPage) : Option Task :=
  let task := page.properties.foldl applyProp
    { id := page.id, url := page.url, title := "", dueStart := none,
      dueEnd := none, priority := "", type := "", scheduleStatus := "",
      workload := "", memo := "", notifyDays := defaultNotifyDays }
  if task.title = "" ∨ (task.dueStart = none ∧ task.dueEnd = none) then none
  else some task

/-- The page loop inside `fetchNotionTasks` of `main.go` (first
document): parse every page of a response, appending only the non-`nil`
results and continuing past rejected ones. -/
def collectParsedTasks : List NPage → List Task
  | [] => []
  | page :: rest =>
    match parseNotionPage page with
    | some task => task :: collectParsedTasks rest
    | none => collectParsedTasks rest

end NN

def secondOf (t : Nat) : Nat := t % 60

/-- Weekday abbreviation of a day count; 0001-01-01 of the proleptic
Gregorian calendar is a Monday. -/
def weekdayName (d : Nat) : String :=
  match d % 7 with
  | 0 => "Mon"
  | 1 => "Tue"
  | 2 => "Wed"
  | 3 => "Thu"
  | 4 => "Fri"
  | 5 => "Sat"
  | _ => "Sun"

def monthName (m : Nat) : String :=
  match m with
  | 1 => "Jan"
  | 2 => "Feb"
  | 3 => "Mar"
  | 4 => "Apr"
  | 5 => "May"
  | 6 => "Jun"
  | 7 => "Jul"
  | 8 => "Aug"
  | 9 => "Sep"
  | 10 => "Oct"
  | 11 => "Nov"
  | _ => "Dec"

/-- Abbreviation of the program's fixed local time zone; its value is
irrelevant to every claim. -/
def zoneName : String := "JST"

/-- Go layout `time.RFC1123`: `"Mon, 02 Jan 2006 15:04:05 MST"`. -/
def rfc1123 (t : Nat) : String :=
  weekdayName (t / secPerDay) ++ ", " ++ pad2 (dayOf t) ++ " " ++
  monthName (monthOf t) ++ " " ++ pad4 (yearOf t) ++ " " ++ pad2 (hourOf t) ++
  ":" ++ pad2 (minuteOf t) ++ ":" ++ pad2 (secondOf t) ++ " " ++ zoneName

namespace SL

/-- `MAX_MESSAGE_LENGTH` of `slack.go` (second document). -/
def MAX_MESSAGE_LENGTH : Nat := 3000

/-- `MAX_MEMO_LENGTH` of `slack.go` (second document). -/
def MAX_MEMO_LENGTH : Nat := 1000

/-- `Task` of `unnamed/part_002` used by `slack.go` (second document)
and `notion.go`.  Its `Workload float32` only ever holds small decimal
select-names with at most two fractional digits; we model it exactly in
hundredths (no claim depends on float rounding). -/
structure Task where
  id : String
  title : String
  dueStart : Option Nat
  dueEnd : Option Nat
  priority : String
  type : String
  scheduleStatus : String
  workload : Nat
  memo : String
  url : String
deriving DecidableEq, Repr

/-- `getTargetDueDate` of `slack.go` (second document); identical to the
`main.go` one. -/
def getTargetDueDate (task : Task) : Option Nat :=
  match task.dueEnd with
  | some e => some e
  | none =>
    match task.dueStart with
    | some s => some s
    | none => none

/-- `groupTasksByUrgency` of `slack.go` (second document): boundaries at
23:59:59 of the respective day, the raw due instant compared against
them. -/
def groupTasksByUrgency (tasks : List Task) (now : Nat) :
    List Task × List Task × List Task :=
  let todayBoundary := midnight now + (23 * 3600 + 59 * 60 + 59)
  let threeDaysBoundary := todayBoundary + 3 * secPerDay
  let sevenDaysBoundary := todayBoundary + 7 * secPerDay
  match tasks with
  | [] => ([], [], [])
  | task :: rest =>
    let r := groupTasksByUrgency rest now
    match getTargetDueDate task with
    | none => r
    | some dueDate =>
      if dueDate ≤ todayBoundary then (task :: r.1, r.2.1, r.2.2)
      else if dueDate ≤ threeDaysBoundary then (r.1, task :: r.2.1, r.2.2)
      else if dueDate ≤ sevenDaysBoundary then (r.1, r.2.1, task :: r.2.2)
      else r

/-- The module-level `priorityOrder` map staged for this program
generation (`unnamed/part_002`, lines 46–51): the middle key is spelled
`"Mid"`, and a missing key — for example `"Medium"` — yields Go's zero
value `0`. -/
def priorityOrder (s : String) : Nat :=
  if s = "High" then 1
  else if s = "Mid" then 2
  else if s = "Low" then 3
  else if s = "" then 4
  else 0

/-- The `less` closure of `sortTasks` in `slack.go` (second document):
like the `main.go` one but over this generation's `priorityOrder` table,
and a comparison involving a missing due date yields `false`. -/
def taskLess (a b : Task) : Bool :=
  let priI := priorityOrder a.priority
  let priJ := priorityOrder b.priority
  if priI ≠ priJ then decide (priI < priJ)
  else
    match getTargetDueDate a, getTargetDueDate b with
    | some dueI, some dueJ => decide (dueI < dueJ)
    | _, _ => false

def taskLE (a b : Task) : Bool := ! taskLess b a

/-- `sortTasks` of `slack.go` (second document): `sort.SliceStable`. -/
def sortTasks (tasks : List Task) : List Task := tasks.mergeSort taskLE

/-- `timeFormat` of `slack.go` (second document): `"MM/DD HH:MM"` when
the hour is non-zero, else `"MM/DD"`. -/
def timeFormat (t : Nat) : String :=
  if hourOf t ≠ 0 then
    pad2 (monthOf t) ++ "/" ++ pad2 (dayOf t) ++ " " ++ pad2 (hourOf t) ++ ":" ++
    pad2 (minuteOf t)
  else pad2 (monthOf t) ++ "/" ++ pad2 (dayOf t)

/-- `formatDueDate` of `slack.go` (second document), lines 360–375 of
the file.  Result: `some (.error _)` models the returned `error`,
`some (.ok _)` a returned string, and `none` the run-time panic: when
only `DueEnd` is present the function falls through to
`timeFormat(time.Time(*startTime))` and dereferences the nil
`startTime` pointer. -/
def formatDueDate (task : Task) : Option (Except String String) :=
  match task.dueStart, task.dueEnd with
  | none, none => some (.error "startTime and endTime are both nil")
  | some startTime, some endTime =>
    some (.ok (timeFormat startTime ++ " ~ " ++ timeFormat endTime))
  | some startTime, none => some (.ok (timeFormat startTime))
  | none, some _ => none

/-- `fmt.Sprintf("%.2f", w)` on the hundredths model of `Workload`. -/
def fmtWorkload (w : Nat) : String :=
  toString (w / 100) ++ "." ++ pad2 (w % 100)

/-- Memo truncation in `appendSection` of `slack.go` (second document):
cut at `MAX_MEMO_LENGTH` and append an ellipsis marker; no escaping in
this variant. -/
def truncatedMemo (memo : String) : String :=
  if memo.length > MAX_MEMO_LENGTH then strTake memo MAX_MEMO_LENGTH ++ "..."
  else memo

/-- The `details` list built for one task inside `appendSection` of
`slack.go` (second document); `some (.error _)` when `formatDueDate`
returns its error (wrapped as in the source), `none` when it panics. -/
def taskDetails (task : Task) : Option (Except String (List String)) :=
  match formatDueDate task with
  | none => none
  | some (.error e) =>
    some (.error ("failed to format due date for task " ++ task.title ++ ": " ++ e))
  | some (.ok strTime) =>
    some (.ok (["*期限日:* " ++ strTime]
      ++ (if task.priority ≠ "" then ["*優先度:* " ++ task.priority] else [])
      ++ (if task.type ≠ "" then ["*種類:* " ++ task.type] else [])
      ++ (if task.scheduleStatus ≠ "" then
            ["*スケジュール:* " ++ task.scheduleStatus] else [])
      ++ (if task.workload ≠ 0 then
            ["*ワークロード:* " ++ fmtWorkload task.workload] else [])
      ++ (if task.memo ≠ "" then ["*メモ:* " ++ truncatedMemo task.memo] else [])))

/-- `detailsText` for one task in `appendSection` of `slack.go` (second
document): fields joined with `" | "`, truncated at
`MAX_MESSAGE_LENGTH` with a trailing ellipsis marker. -/
def detailsText (task : Task) : Option (Except String String) :=
  match taskDetails task with
  | none => none
  | some (.error e) => some (.error e)
  | some (.ok details) =>
    let t := String.intercalate " | " details
    some (.ok (if t.length > MAX_MESSAGE_LENGTH then
                 strTake t MAX_MESSAGE_LENGTH ++ "..."
               else t))

/-- A Slack Block Kit block, by its text content. -/
inductive Block where
  | header (text : String)
  | divider
  | section (text : String)
  | context (text : String)
deriving DecidableEq, Repr

/-- The task loop of `appendSection` in `slack.go` (second document). -/
def appendSectionLoop (blocks : List Block) :
    List Task → Option (Except String (List Block))
  | [] => some (.ok blocks)
  | task :: rest =>
    match detailsText task with
    | none => none
    | some (.error e) => some (.error e)
    | some (.ok dt) =>
      appendSectionLoop
        (blocks ++ [.section ("*<" ++ task.url ++ "|" ++ task.title ++ ">*" ++ "\n" ++ dt)])
        rest

/-- `appendSection` of `slack.go` (second document). -/
def appendSection (blocks : List Block) (title : String) (tasks : List Task) :
    Option (Except String (List Block)) :=
  if tasks.length = 0 then some (.ok blocks)
  else appendSectionLoop (blocks ++ [.divider, .section ("*" ++ title ++ "*")]) tasks

/-- `buildSlackBlocks` of `slack.go` (second document): `nil, nil` on an
empty task list, otherwise header, three urgency sections (propagating
`appendSection` errors) and a footer. -/
def buildSlackBlocks (tasks : List Task) (now : Nat) :
    Option (Except String (List Block)) :=
  if tasks.length = 0 then some (.ok [])
  else
    let g := groupTasksByUrgency tasks now
    let todayTasks := sortTasks g.1
    let threeDayTasks := sortTasks g.2.1
    let sevenDayTasks := sortTasks g.2.2
    let blocks : List Block := [.header "🔔 Notion タスクリマインダー"]
    match appendSection blocks "🚨 今日が期限" todayTasks with
    | none => none
    | some (.error e) => some (.error e)
    | some (.ok blocks) =>
      match appendSection blocks "⚠️ 3 日以内に期限" threeDayTasks with
      | none => none
      | some (.error e) => some (.error e)
      | some (.ok blocks) =>
        match appendSection blocks "🗓️ 7 日以内に期限" sevenDayTasks with
        | none => none
        | some (.error e) => some (.error e)
        | some (.ok blocks) =>
          some (.ok (blocks ++ [.divider, .context ("CreatedAt: " ++ rfc1123 now)]))

/-- `strconv.ParseFloat(name, 32)` restricted to the plain decimal
numerals this select field holds (at most two fractional digits), kept
exactly in hundredths; no claim depends on this field. -/
def parseHundredths (s : String) : Option Nat :=
  match s.split (· == '.') with
  | [intPart] => intPart.toNat?.map (· * 100)
  | [intPart, fracPart] =>
    match intPart.toNat?, fracPart.toList with
    | some i, [d1] => if d1.isDigit then some (i * 100 + (d1.toNat - 48) * 10) else none
    | some i, [d1, d2] =>
      if d1.isDigit ∧ d2.isDigit then
        some (i * 100 + (d1.toNat - 48) * 10 + (d2.toNat - 48))
      else none
    | _, _ => none
  | _ => none

/-- One iteration of the property `switch` in `parseNotionPage`
(`notion.go`). -/
def applyProp (task : Task) (prop : String × NProp) : Task :=
  match prop with
  | ("Name", .titleProp parts) =>
    match parts with
    | content :: _ => { task with title := content }
    | [] => task
  | ("Due", .dateProp d) =>
    match d with
    | some (s, e) => { task with dueStart := s, dueEnd := e }
    | none => task
  | ("Priority", .selectProp name) =>
    if name ≠ "" then { task with priority := name } else task
  | ("Type", .selectProp name) =>
    if name ≠ "" then { task with type := name } else task
  | ("Schedule Status", .statusProp name) =>
    if name ≠ "" then { task with scheduleStatus := name } else task
  | ("Workload", .selectProp name) =>
    if name ≠ "" then
      match parseHundredths name with
      | some workload => { task with workload := workload }
      | none => task
    else task
  | ("Memo", .richTextProp parts) =>
    if parts.length > 0 then { task with memo := String.intercalate "\n" parts }
    else task
  | _ => task

/-- `parseNotionPage` of `notion.go`: populate the task from the
property bag, then reject it (`nil`, here `none`) when the title is
empty or both due dates are absent. -/
def parseNotionPage (page : NPage) : Option Task :=
  let task := page.properties.foldl applyProp
    { id := page.id, url := page.url, title := "", dueStart := none,
      dueEnd := none, priority := "", type := "", scheduleStatus := "",
      workload := 0, memo := "" }
  if task.title = "" ∨ (task.dueStart = none ∧ task.dueEnd = none) then none
  else some task

/-- The result loop of `fetchNotionTasks` in `notion.go`, lines 42–51:
`task := parseNotionPage(page)` is followed immediately by
`task.DueEnd != nil && …` — evaluated before the `task != nil` guard —
so a page that `parseNotionPage` rejects makes the loop dereference the
nil `task` pointer; `none` models that run-time panic. -/
def collectTasks (onOrBeforeDate : Nat) : List NPage → Option (List Task)
  | [] => some []
  | page :: rest =>
    match parseNotionPage page with
    | none => none
    | some task =>
      if (match task.dueEnd with
          | some e => decide (e > onOrBeforeDate)
          | none => false) then
        collectTasks onOrBeforeDate rest
      else
        (collectTasks onOrBeforeDate rest).map (task :: ·)

/-- Outcome of one run of the later program, as far as delivery is
concerned. -/
inductive SendOutcome where
  /-- A log line and `return`: exit code zero, `PostMessage` never made. -/
  | exitZeroNoSend
  /-- `log.Fatalf`: non-zero exit, `PostMessage` never made. -/
  | fatalExit (msg : String)
  /-- The process crashed on a run-time panic before posting. -/
  | panicked
  /-- `slackClient.PostMessage` is invoked with these blocks. -/
  | posted (blocks : List Block)
deriving DecidableEq, Repr

/-- The post-fetch logic of the cobra `Run` in `main.go` (second
document): exit zero without posting when the fetch returned no tasks,
otherwise build the blocks (fatal on error) and post them. -/
def rootCmdRun (tasks : List Task) (now : Nat) : SendOutcome :=
  if tasks.length = 0 then .exitZeroNoSend
  else
    match buildSlackBlocks tasks now with
    | none => .panicked
    | some (.error e) => .fatalExit e
    | some (.ok blocks) => .posted blocks

/-- The post-fetch logic of `main` in `unnamed/part_002` (first
document): no zero-task guard — the blocks are built and `PostMessage`
is invoked unconditionally. -/
def part002MainRun (tasks : List Task) (now : Nat) : SendOutcome :=
  match buildSlackBlocks tasks now with
  | none => .panicked
  | some (.error e) => .fatalExit e
  | some (.ok blocks) => .posted blocks

end SL

namespace NN

/-- The non-strict due-date order induced by the `less` closure of
`sortTasks`: among present due dates the usual order, and a missing due
date sorts after every present one. -/
def dueLE : Option Nat → Option Nat → Prop
  | some da, some db => da ≤ db
  | none, some _ => False
  | _, none => True

theorem dueLE_refl (a : Option Nat) : dueLE a a := by
  rcases a with _ | da <;> simp [dueLE]

theorem dueLE_trans {a b c : Option Nat} (h1 : dueLE a b) (h2 : dueLE b c) :
    dueLE a c := by
  rcases a with _ | da <;> rcases b with _ | db <;> rcases c with _ | dc <;>
    simp_all [dueLE]
  omega

theorem dueLE_total (a b : Option Nat) : dueLE a b ∨ dueLE b a := by
  rcases a with _ | da <;> rcases b with _ | db <;> simp_all [dueLE]
  omega

theorem taskLE_iff (a b : Task) :
    taskLE a b = true ↔
      priorityOrder a.priority < priorityOrder b.priority ∨
      (priorityOrder a.priority = priorityOrder b.priority ∧
        dueLE (getTargetDueDate a) (getTargetDueDate b)) := by
  unfold taskLE taskLess
  rcases ha : getTargetDueDate a with _ | da <;>
    rcases hb : getTargetDueDate b with _ | db <;>
    by_cases hp : priorityOrder b.priority = priorityOrder a.priority <;>
    simp [hp, dueLE] <;> omega

theorem taskLE_trans (a b c : Task) (h1 : taskLE a b) (h2 : taskLE b c) :
    taskLE a c := by
  rw [taskLE_iff] at *
  rcases h1 with h1 | ⟨h1, h1d⟩ <;> rcases h2 with h2 | ⟨h2, h2d⟩
  · exact Or.inl (h1.trans h2)
  · exact Or.inl (h2 ▸ h1)
  · exact Or.inl (h1 ▸ h2)
  · exact Or.inr ⟨h1.trans h2, dueLE_trans h1d h2d⟩

theorem taskLE_total (a b : Task) : taskLE a b || taskLE b a := by
  rcases Nat.lt_trichotomy (priorityOrder a.priority) (priorityOrder b.priority)
    with h | h | h
  · simp [taskLE_iff, h]
  · rcases dueLE_total (getTargetDueDate a) (getTargetDueDate b) with hd | hd
    · simp only [Bool.or_eq_true, taskLE_iff]
      exact Or.inl (Or.inr ⟨h, hd⟩)
    · simp only [Bool.or_eq_true, taskLE_iff]
      exact Or.inr (Or.inr ⟨h.symm, hd⟩)
  · simp [taskLE_iff, h]

theorem taskLE_imp (a b : Task) (hab : taskLE a b = true) :
    priorityOrder a.priority ≤ priorityOrder b.priority ∧
    (priorityOrder a.priority = priorityOrder b.priority →
      ∀ da db, getTargetDueDate a = some da → getTargetDueDate b = some db →
        da ≤ db) := by
  rw [taskLE_iff] at hab
  rcases hab with h | ⟨h, hd⟩
  · exact ⟨Nat.le_of_lt h, fun heq => absurd heq (Nat.ne_of_lt h)⟩
  · refine ⟨Nat.le_of_eq h, fun _ da db hda hdb => ?_⟩
    rw [hda, hdb] at hd
    exact hd

end NN

/-- **C4 (amended).** In the `main.go` variant, `sortTasks` orders
tasks by priority rank ascending with High = 1, Medium = 2, Low = 3 and
unset (empty string) = 4, and within equal priority rank by effective
due date ascending (earlier first): the result is a permutation of the
input that is pairwise ordered by rank, and by due date among equal
ranks.  The `unnamed/part_002` variant's `priorityOrder` table instead
spells its keys High / Mid / Low / "" (ranks 1/2/3/4), so there the
string "Medium" is a missing key and falls to rank 0 — such a task
sorts before every "High" task rather than after it (see the
counterexample). -/
theorem c4_sortTasks_orders_by_priority_then_due :
    NN.priorityOrder "High" = 1 ∧ NN.priorityOrder "Medium" = 2 ∧
    NN.priorityOrder "Low" = 3 ∧ NN.priorityOrder "" = 4 ∧
    SL.priorityOrder "High" = 1 ∧ SL.priorityOrder "Mid" = 2 ∧
    SL.priorityOrder "Low" = 3 ∧ SL.priorityOrder "" = 4 ∧
    SL.priorityOrder "Medium" = 0 ∧
    ∀ tasks : List NN.Task,
      (NN.sortTasks tasks).Perm tasks ∧
      (NN.sortTasks tasks).Pairwise (fun a b =>
        NN.priorityOrder a.priority ≤ NN.priorityOrder b.priority ∧
        (NN.priorityOrder a.priority = NN.priorityOrder b.priority →
          ∀ da db, NN.getTargetDueDate a = some da →
            NN.getTargetDueDate b = some db → da ≤ db)) := by
  refine ⟨rfl, rfl, rfl, rfl, rfl, rfl, rfl, rfl, rfl, fun tasks =>
    ⟨List.mergeSort_perm tasks NN.taskLE, ?_⟩⟩
  have h := List.sorted_mergeSort NN.taskLE_trans NN.taskLE_total tasks
  exact h.imp (fun {a b} hab => NN.taskLE_imp a b hab)

def c4slHigh : SL.Task :=
  { id := "h", title := "H", dueStart := none,
    dueEnd := some (mkTime 2024 6 11 0 0), priority := "High", type := "",
    scheduleStatus := "", workload := 0, memo := "", url := "u" }

def c4slMedium : SL.Task :=
  { id := "m", title := "M", dueStart := none,
    dueEnd := some (mkTime 2024 6 12 0 0), priority := "Medium", type := "",
    scheduleStatus := "", workload := 0, memo := "", url := "u" }

/-- Counterexample to C4 as stated: in the `unnamed/part_002` variant
cited by the claim, the `priorityOrder` key for the middle rank is
"Mid", so "Medium" gets the missing-key rank 0 — not the claimed 2 —
and that variant's `sortTasks` places a "Medium" task *before* a "High"
task. -/
theorem c4_counterexample :
    SL.priorityOrder "Medium" = 0 ∧
    ¬ SL.priorityOrder "Medium" = 2 ∧
    SL.taskLess c4slMedium c4slHigh = true ∧
    SL.sortTasks [c4slHigh, c4slMedium] = [c4slMedium, c4slHigh] := by
  have hle : SL.taskLE c4slHigh c4slMedium = false := by decide
  refine ⟨rfl, by decide, by decide, ?_⟩
  simp [SL.sortTasks, List.mergeSort, List.splitInTwo, List.splitAt,
    List.splitAt.go, List.merge, hle]

/-- **C5.** `sortTasks` is stable: a pair of tasks with equal priority
rank and equal effective due date that appears in this order in the
input still appears in this order in the output. -/
theorem c5_sortTasks_stable (tasks : List NN.Task) (a b : NN.Task)
    (hpri : NN.priorityOrder a.priority = NN.priorityOrder b.priority)
    (hdue : NN.getTargetDueDate a = NN.getTargetDueDate b)
    (hsub : [a, b].Sublist tasks) :
    [a, b].Sublist (NN.sortTasks tasks) := by
  apply List.pair_sublist_mergeSort NN.taskLE_trans NN.taskLE_total _ hsub
  rw [NN.taskLE_iff]
  exact Or.inr ⟨hpri, hdue ▸ NN.dueLE_refl _⟩

def wTaskHigh : NN.Task :=
  { id := "h", title := "H", dueStart := none,
    dueEnd := some (mkTime 2024 6 11 0 0), priority := "High", type := "",
    scheduleStatus := "", workload := "", memo := "", url := "u",
    notifyDays := 3 }

def wTaskM1 : NN.Task :=
  { id := "m1", title := "M1", dueStart := none,
    dueEnd := some (mkTime 2024 6 12 0 0), priority := "Medium", type := "",
    scheduleStatus := "", workload := "", memo := "", url := "u",
    notifyDays := 3 }

def wTaskM2 : NN.Task :=
  { id := "m2", title := "M2", dueStart := none,
    dueEnd := some (mkTime 2024 6 12 0 0), priority := "Medium", type := "",
    scheduleStatus := "", workload := "", memo := "", url := "u",
    notifyDays := 3 }

/-- Witness for C5: two equal-key Medium tasks separated by a High task
keep their relative order through `sortTasks`. -/
theorem c5_sortTasks_stable_witness :
    [wTaskM1, wTaskM2].Sublist (NN.sortTasks [wTaskM1, wTaskHigh, wTaskM2]) :=
  c5_sortTasks_stable [wTaskM1, wTaskHigh, wTaskM2] wTaskM1 wTaskM2 rfl rfl
    (by decide)

/-- **C10.** A priority string outside {"High", "Medium", "Low", ""}
gets rank 0 from the `priorityOrder` map (Go's zero value for a missing
key), so `sortTasks` places such a task before every "High" task: in
the sorted output no task with an out-of-set priority ever follows a
"High" task. -/
theorem c10_unknown_priority_rank_zero (s : String)
    (h1 : s ≠ "High") (h2 : s ≠ "Medium") (h3 : s ≠ "Low") (h4 : s ≠ "") :
    NN.priorityOrder s = 0 ∧
    ∀ tasks : List NN.Task,
      (NN.sortTasks tasks).Pairwise (fun a b =>
        a.priority = "High" → b.priority ≠ s) := by
  have hs : NN.priorityOrder s = 0 := by simp [NN.priorityOrder, h1, h2, h3, h4]
  refine ⟨hs, fun tasks => ?_⟩
  have h := List.sorted_mergeSort NN.taskLE_trans NN.taskLE_total tasks
  refine h.imp (fun {a b} hab => ?_)
  intro hha hbs
  rw [NN.taskLE_iff, hha, hbs] at hab
  rcases hab with hlt | ⟨heq, _⟩
  · rw [hs] at hlt
    simp [NN.priorityOrder] at hlt
  · rw [hs] at heq
    simp [NN.priorityOrder] at heq

def wTaskUrgent : NN.Task :=
  { id := "x", title := "X", dueStart := none,
    dueEnd := some (mkTime 2024 6 12 0 0), priority := "Urgent", type := "",
    scheduleStatus := "", workload := "", memo := "", url := "u",
    notifyDays := 3 }

/-- Witness for C10 at the priority string "Urgent". -/
theorem c10_unknown_priority_rank_zero_witness :
    NN.priorityOrder "Urgent" = 0 ∧
    (NN.sortTasks [wTaskHigh, wTaskUrgent]).Pairwise (fun a b =>
      a.priority = "High" → b.priority ≠ "Urgent") := by
  have h := c10_unknown_priority_rank_zero "Urgent" (by decide) (by decide)
    (by decide) (by decide)
  exact ⟨h.1, h.2 [wTaskHigh, wTaskUrgent]⟩

set_option maxRecDepth 8192

theorem length_asString (l : List Char) : l.asString.length = l.length := rfl

theorem strTake_length (s : String) (n : Nat) :
    (strTake s n).length = min n s.length := by
  simp [strTake, length_asString]

theorem midnight_midnight (t : Nat) : midnight (midnight t) = midnight t := by
  unfold midnight secPerDay
  omega

theorem midnight_add_days (t k : Nat) :
    midnight (midnight t + k * secPerDay) = midnight t + k * secPerDay := by
  unfold midnight secPerDay
  omega

namespace NN

/-- Membership condition of the `today` bucket of `groupTasksByUrgency`. -/
def inTodayBucket (now : Nat) (t : Task) : Bool :=
  match getTargetDueDate t with
  | some d => decide (midnight d ≤ midnight now)
  | none => false

/-- Membership condition of the `threeDays` bucket. -/
def inThreeDayBucket (now : Nat) (t : Task) : Bool :=
  match getTargetDueDate t with
  | some d =>
    decide (midnight now < midnight d) &&
    decide (midnight d ≤ midnight now + 3 * secPerDay)
  | none => false

/-- Membership condition of the `sevenDays` bucket. -/
def inSevenDayBucket (now : Nat) (t : Task) : Bool :=
  match getTargetDueDate t with
  | some d =>
    decide (midnight now + 3 * secPerDay < midnight d) &&
    decide (midnight d ≤ midnight now + 7 * secPerDay)
  | none => false

theorem groupTasksByUrgency_eq_filters (tasks : List Task) (now : Nat) :
    groupTasksByUrgency tasks now =
      (tasks.filter (inTodayBucket now), tasks.filter (inThreeDayBucket now),
       tasks.filter (inSevenDayBucket now)) := by
  induction tasks with
  | nil => simp [groupTasksByUrgency]
  | cons t rest ih =>
    rcases hd : getTargetDueDate t with _ | d
    · simp [groupTasksByUrgency, List.filter_cons, inTodayBucket,
        inThreeDayBucket, inSevenDayBucket, hd, ih]
    · by_cases h1 : midnight d ≤ midnight now
      · have hm : ¬ (midnight now < midnight d) := by omega
        have h37 : ¬ (midnight now + 3 * secPerDay < midnight d) := by
          have : 0 < secPerDay := by simp [secPerDay]
          omega
        simp [groupTasksByUrgency, List.filter_cons, inTodayBucket,
          inThreeDayBucket, inSevenDayBucket, hd, ih, h1, hm, h37]
      · by_cases h2 : midnight d ≤ midnight now + 3 * secPerDay
        · have h37 : ¬ (midnight now + 3 * secPerDay < midnight d) := by omega
          simp [groupTasksByUrgency, List.filter_cons, inTodayBucket,
            inThreeDayBucket, inSevenDayBucket, hd, ih, h1, h2,
            Nat.lt_of_not_le h1, h37]
        · by_cases h3 : midnight d ≤ midnight now + 7 * secPerDay
          · simp [groupTasksByUrgency, List.filter_cons, inTodayBucket,
              inThreeDayBucket, inSevenDayBucket, hd, ih, h1, h2, h3,
              Nat.lt_of_not_le h2]
          · simp [groupTasksByUrgency, List.filter_cons, inTodayBucket,
              inThreeDayBucket, inSevenDayBucket, hd, ih, h1, h2, h3]

end NN

/-- **C3 (amended).** For every current time `now` and every task with
an effective due date, `groupTasksByUrgency` (main.go) assigns the task
to exactly one tier using boundaries anchored at `now`'s calendar date:
a task due exactly at `todayStart` is placed in the DueToday tier; a
task due exactly at `todayStart + 3 days 00:00:00` is placed in the
3-day tier and not the 7-day tier; and a task whose due date falls on a
calendar day strictly after `todayStart + 7 days` is placed in no tier
(the code truncates the due instant to midnight before comparing, so
the original claim's clause must be read at calendar-day granularity);
any task whose calendar due day is within `todayStart + 7 days` lands
in exactly one of the three tiers. -/
theorem c3_group_boundaries (now : Nat) (tasks : List NN.Task)
    (t : NN.Task) (d : Nat) (hmem : t ∈ tasks)
    (hdue : NN.getTargetDueDate t = some d) :
    (d = midnight now →
      t ∈ (NN.groupTasksByUrgency tasks now).1 ∧
      t ∉ (NN.groupTasksByUrgency tasks now).2.1 ∧
      t ∉ (NN.groupTasksByUrgency tasks now).2.2) ∧
    (d = midnight now + 3 * secPerDay →
      t ∈ (NN.groupTasksByUrgency tasks now).2.1 ∧
      t ∉ (NN.groupTasksByUrgency tasks now).1 ∧
      t ∉ (NN.groupTasksByUrgency tasks now).2.2) ∧
    (midnight now + 7 * secPerDay < midnight d →
      t ∉ (NN.groupTasksByUrgency tasks now).1 ∧
      t ∉ (NN.groupTasksByUrgency tasks now).2.1 ∧
      t ∉ (NN.groupTasksByUrgency tasks now).2.2) ∧
    (midnight d ≤ midnight now + 7 * secPerDay →
      (t ∈ (NN.groupTasksByUrgency tasks now).1 ∧
        t ∉ (NN.groupTasksByUrgency tasks now).2.1 ∧
        t ∉ (NN.groupTasksByUrgency tasks now).2.2) ∨
      (t ∈ (NN.groupTasksByUrgency tasks now).2.1 ∧
        t ∉ (NN.groupTasksByUrgency tasks now).1 ∧
        t ∉ (NN.groupTasksByUrgency tasks now).2.2) ∨
      (t ∈ (NN.groupTasksByUrgency tasks now).2.2 ∧
        t ∉ (NN.groupTasksByUrgency tasks now).1 ∧
        t ∉ (NN.groupTasksByUrgency tasks now).2.1)) := by
  rw [NN.groupTasksByUrgency_eq_filters tasks now]
  simp only [List.mem_filter, NN.inTodayBucket, NN.inThreeDayBucket,
    NN.inSevenDayBucket, hdue, hmem, true_and, Bool.and_eq_true,
    decide_eq_true_eq, not_and, not_le, not_lt]
  have hmm := midnight_midnight now
  have ha3 := midnight_add_days now 3
  have hs : 0 < secPerDay := by simp [secPerDay]
  refine ⟨fun hd => ?_, fun hd => ?_, fun hd => ?_, fun hd => ?_⟩
  · subst hd
    simp only [hmm]
    omega
  · subst hd
    simp only [ha3]
    omega
  · omega
  · omega

def c3now : Nat := mkTime 2024 6 10 9 0

def c3dueLate : Nat := mkTime 2024 6 17 1 0

def c3task : NN.Task :=
  { id := "c3", title := "C3", dueStart := none, dueEnd := some c3dueLate,
    priority := "", type := "", scheduleStatus := "", workload := "",
    memo := "", url := "u", notifyDays := 3 }

/-- Counterexample to C3 as stated: a task due one hour after
`todayStart + 7 days` — strictly after the boundary — is nevertheless
placed in the 7-day tier, because the code compares calendar days. -/
theorem c3_counterexample :
    NN.getTargetDueDate c3task = some c3dueLate ∧
    midnight c3now + 7 * secPerDay < c3dueLate ∧
    c3task ∈ (NN.groupTasksByUrgency [c3task] c3now).2.2 := by decide

def c3wNow : Nat := mkTime 2024 6 12 9 30

def c3wDue : Nat := mkTime 2024 6 12 0 0

def c3wTask : NN.Task :=
  { id := "c3w", title := "W", dueStart := none, dueEnd := some c3wDue,
    priority := "", type := "", scheduleStatus := "", workload := "",
    memo := "", url := "u", notifyDays := 3 }

/-- Witness for C3: a task due exactly at `todayStart` lands in the
DueToday tier and in no other. -/
theorem c3_group_boundaries_witness :
    c3wTask ∈ (NN.groupTasksByUrgency [c3wTask] c3wNow).1 ∧
    c3wTask ∉ (NN.groupTasksByUrgency [c3wTask] c3wNow).2.1 ∧
    c3wTask ∉ (NN.groupTasksByUrgency [c3wTask] c3wNow).2.2 :=
  (c3_group_boundaries c3wNow [c3wTask] c3wTask c3wDue (by decide) rfl).1
    (by decide)

/-- **C8 (amended).** A memo longer than the configured maximum (150 in
the main.go/part_001 variant, `MAX_MEMO_LENGTH = 1000` in the slack.go
variant) is rendered as its first maximum-many characters followed by
the ellipsis marker `"..."`; the full joined detail line is bounded by
the configured maximum (2900 resp. `MAX_MESSAGE_LENGTH = 3000`) *plus
the three-character ellipsis marker* — 2903 resp. 3003 — because the
code appends `"..."` after cutting at the maximum, so the original
claim's bound is exceeded by exactly those three characters. -/
theorem c8_truncation_and_line_bounds (tNN : NN.Task) (tSL : SL.Task) :
    (tNN.memo.length > 150 →
      NN.truncatedMemo tNN.memo = strTake tNN.memo 150 ++ "...") ∧
    (NN.detailsText tNN).length ≤ 2903 ∧
    (tSL.memo.length > 1000 →
      SL.truncatedMemo tSL.memo = strTake tSL.memo 1000 ++ "...") ∧
    (match SL.detailsText tSL with
     | some (Except.ok s) => s.length ≤ 3003
     | _ => True) := by
  refine ⟨fun h => ?_, ?_, fun h => ?_, ?_⟩
  · simp only [NN.truncatedMemo, if_pos h]
  · simp only [NN.detailsText]
    by_cases h : (String.intercalate " | " (NN.details tNN)).length > 2900
    · rw [if_pos h, String.length_append, strTake_length]
      have h3 : ("...").length = 3 := by decide
      omega
    · rw [if_neg h]
      omega
  · have hM : SL.MAX_MEMO_LENGTH = 1000 := rfl
    simp only [SL.truncatedMemo, hM, if_pos h]
  · simp only [SL.detailsText]
    rcases SL.taskDetails tSL with _ | e
    · simp
    · rcases e with e | dl
      · simp
      · dsimp only
        by_cases h :
            (String.intercalate " | " dl).length > SL.MAX_MESSAGE_LENGTH
        · rw [if_pos h, String.length_append, strTake_length]
          have h3 : ("...").length = 3 := by decide
          have hM : SL.MAX_MESSAGE_LENGTH = 3000 := rfl
          omega
        · rw [if_neg h]
          have hM : SL.MAX_MESSAGE_LENGTH = 3000 := rfl
          omega

def c8memoNN : String := (List.replicate 2000 'm').asString

def c8taskWitNN : NN.Task :=
  { id := "w", title := "W", dueStart := none,
    dueEnd := some (mkTime 2024 6 12 0 0), priority := "", type := "",
    scheduleStatus := "", workload := "", memo := c8memoNN, url := "u",
    notifyDays := 3 }

def c8memoSL : String := (List.replicate 2000 'n').asString

def c8taskWitSL : SL.Task :=
  { id := "w", title := "W", dueStart := some (mkTime 2024 6 12 0 0),
    dueEnd := none, priority := "", type := "", scheduleStatus := "",
    workload := 0, memo := c8memoSL, url := "u" }

/-- Witness for C8 at 2000-character memos in both variants. -/
theorem c8_truncation_and_line_bounds_witness :
    c8taskWitNN.memo.length > 150 ∧
    NN.truncatedMemo c8taskWitNN.memo = strTake c8taskWitNN.memo 150 ++ "..." ∧
    (NN.detailsText c8taskWitNN).length ≤ 2903 ∧
    c8taskWitSL.memo.length > 1000 ∧
    SL.truncatedMemo c8taskWitSL.memo = strTake c8taskWitSL.memo 1000 ++ "..." ∧
    (match SL.detailsText c8taskWitSL with
     | some (Except.ok s) => s.length ≤ 3003
     | _ => True) := by
  have hm : c8taskWitNN.memo.length > 150 := by
    rw [show c8taskWitNN.memo = (List.replicate 2000 'm').asString from rfl,
      length_asString, List.length_replicate]
    omega
  have hm2 : c8taskWitSL.memo.length > 1000 := by
    rw [show c8taskWitSL.memo = (List.replicate 2000 'n').asString from rfl,
      length_asString, List.length_replicate]
    omega
  have h := c8_truncation_and_line_bounds c8taskWitNN c8taskWitSL
  exact ⟨hm, h.1 hm, h.2.1, hm2, h.2.2.1 hm2, h.2.2.2⟩

def c8badType : String := (List.replicate 3000 'a').asString

def c8badTask : NN.Task :=
  { id := "b", title := "B", dueStart := none,
    dueEnd := some (mkTime 2024 6 12 0 0), priority := "", type := c8badType,
    scheduleStatus := "", workload := "", memo := "", url := "u",
    notifyDays := 3 }

/-- Counterexample to C8 as stated: a task whose joined detail line is
truncated ends up 2903 characters long, exceeding the configured
maximum total length of 2900. -/
theorem c8_counterexample : 2900 < (NN.detailsText c8badTask).length := by
  have htype : c8badType.length = 3000 := by
    rw [show c8badType = (List.replicate 3000 'a').asString from rfl,
      length_asString, List.length_replicate]
  have hne : c8badType ≠ "" := by
    intro h
    rw [h] at htype
    simp at htype
  have hdet : NN.details c8badTask =
      ["*Due:* " ++ NN.formatDueDate c8badTask, "*Type:* " ++ c8badType] := by
    simp [NN.details, c8badTask, hne]
  have hfmt : NN.formatDueDate c8badTask = "2024-06-12" := by decide
  have hj : String.intercalate " | " (NN.details c8badTask) =
      (("*Due:* " ++ NN.formatDueDate c8badTask) ++ " | ") ++
        ("*Type:* " ++ c8badType) := by
    rw [hdet]; rfl
  have hlen : (String.intercalate " | " (NN.details c8badTask)).length = 3028 := by
    rw [hj, hfmt, String.length_append, String.length_append,
      String.length_append, String.length_append, htype]
    decide
  have hdt : NN.detailsText c8badTask =
      strTake (String.intercalate " | " (NN.details c8badTask)) 2900 ++ "..." := by
    simp only [NN.detailsText]
    rw [if_pos (by omega)]
  rw [hdt, String.length_append, strTake_length, hlen]
  decide

/-- **C9.** Effective due date precedence: whenever `dueEnd` is present
the effective due date (`getTargetDueDate`, the value consumed by
`groupTasksByUrgency`, `sortTasks`, `shouldNotify` and `isDueToday`)
equals `dueEnd`; when only `dueStart` is present it equals `dueStart` —
in both program variants. -/
theorem c9_effective_due_date_precedence (t : NN.Task) (u : SL.Task) :
    (∀ e, t.dueEnd = some e → NN.getTargetDueDate t = some e) ∧
    (∀ s, t.dueEnd = none → t.dueStart = some s →
      NN.getTargetDueDate t = some s) ∧
    (∀ e, u.dueEnd = some e → SL.getTargetDueDate u = some e) ∧
    (∀ s, u.dueEnd = none → u.dueStart = some s →
      SL.getTargetDueDate u = some s) := by
  refine ⟨?_, ?_, ?_, ?_⟩
  · intro e he
    simp [NN.getTargetDueDate, he]
  · intro s hn hs
    simp [NN.getTargetDueDate, hn, hs]
  · intro e he
    simp [SL.getTargetDueDate, he]
  · intro s hn hs
    simp [SL.getTargetDueDate, hn, hs]

def c9TaskBoth : NN.Task :=
  { id := "c9", title := "B", dueStart := some (mkTime 2024 1 1 0 0),
    dueEnd := some (mkTime 2024 1 5 0 0), priority := "", type := "",
    scheduleStatus := "", workload := "", memo := "", url := "u",
    notifyDays := 3 }

def c9TaskStart : NN.Task :=
  { id := "c9s", title := "S", dueStart := some (mkTime 2024 1 1 0 0),
    dueEnd := none, priority := "", type := "", scheduleStatus := "",
    workload := "", memo := "", url := "u", notifyDays := 3 }

def c9SLBoth : SL.Task :=
  { id := "c9", title := "B", dueStart := some (mkTime 2024 1 1 0 0),
    dueEnd := some (mkTime 2024 1 5 0 0), priority := "", type := "",
    scheduleStatus := "", workload := 0, memo := "", url := "u" }

def c9SLStart : SL.Task :=
  { id := "c9s", title := "S", dueStart := some (mkTime 2024 1 1 0 0),
    dueEnd := none, priority := "", type := "", scheduleStatus := "",
    workload := 0, memo := "", url := "u" }

/-- Witness for C9: a Jan 1 – Jan 5 range resolves to Jan 5; a
start-only date resolves to the start. -/
theorem c9_effective_due_date_precedence_witness :
    NN.getTargetDueDate c9TaskBoth = some (mkTime 2024 1 5 0 0) ∧
    NN.getTargetDueDate c9TaskStart = some (mkTime 2024 1 1 0 0) ∧
    SL.getTargetDueDate c9SLBoth = some (mkTime 2024 1 5 0 0) ∧
    SL.getTargetDueDate c9SLStart = some (mkTime 2024 1 1 0 0) :=
  ⟨(c9_effective_due_date_precedence c9TaskBoth c9SLBoth).1 _ rfl,
   (c9_effective_due_date_precedence c9TaskStart c9SLStart).2.1 _ rfl rfl,
   (c9_effective_due_date_precedence c9TaskBoth c9SLBoth).2.2.1 _ rfl,
   (c9_effective_due_date_precedence c9TaskStart c9SLStart).2.2.2 _ rfl rfl⟩

/-- **C2.** In the escaping block of `main.go`'s `appendSection` every
`ReplaceAll` after the first reads `truncatedMemo` again instead of the
previous result, so the rendered memo keeps `*`, `_` and `~` unescaped
(only the final backtick pass survives); the chained block of
`unnamed/part_001` escapes all four.  Concrete evaluation at the
failing input. -/
theorem c2_escaping_eval :
    NN.escapedMemoMain "*a_b~c`d" = "*a_b~c\\`d" ∧
    NN.escapeMemo "*a_b~c`d" = "\\*a\\_b\\~c\\`d" := by decide

def c1Start : Nat := mkTime 2024 6 10 0 0

def c1End : Nat := mkTime 2024 6 12 0 0

def c1TaskNone : SL.Task :=
  { id := "c1", title := "N", dueStart := none, dueEnd := none,
    priority := "", type := "", scheduleStatus := "", workload := 0,
    memo := "", url := "u" }

def c1TaskStartOnly : SL.Task :=
  { id := "c1", title := "S", dueStart := some c1Start, dueEnd := none,
    priority := "", type := "", scheduleStatus := "", workload := 0,
    memo := "", url := "u" }

def c1TaskBoth : SL.Task :=
  { id := "c1", title := "B", dueStart := some c1Start,
    dueEnd := some c1End, priority := "", type := "", scheduleStatus := "",
    workload := 0, memo := "", url := "u" }

def c1TaskEndOnly : SL.Task :=
  { id := "c1", title := "E", dueStart := none, dueEnd := some c1End,
    priority := "", type := "", scheduleStatus := "", workload := 0,
    memo := "", url := "u" }

def c1TaskNN : NN.Task :=
  { id := "c1", title := "N", dueStart := none, dueEnd := none,
    priority := "", type := "", scheduleStatus := "", workload := "",
    memo := "", url := "u", notifyDays := 3 }

/-- **C1.** The error-returning `formatDueDate` of `slack.go` signals
the distinct error exactly when both dates are absent, and returns a
formatted string when `dueStart` is present (alone or with `dueEnd`);
but when only `dueEnd` is present it dereferences the nil `startTime`
pointer (`none` in the model) instead of returning a formatted string.
The historical `main.go` variant instead returns the `"N/A"`
placeholder with no error.  Concrete evaluation of all four cases. -/
theorem c1_formatDueDate_eval :
    SL.formatDueDate c1TaskNone =
      some (Except.error "startTime and endTime are both nil") ∧
    SL.formatDueDate c1TaskStartOnly = some (Except.ok "06/10") ∧
    SL.formatDueDate c1TaskBoth = some (Except.ok "06/10 ~ 06/12") ∧
    SL.formatDueDate c1TaskEndOnly = none ∧
    NN.formatDueDate c1TaskNN = "N/A" :=
  ⟨rfl, rfl, rfl, rfl, rfl⟩

def c6DueProp : NProp := NProp.dateProp (some (some (mkTime 2024 6 12 0 0), none))

def c6BadPage : NPage :=
  { id := "bad", url := "u", properties := [("Due", c6DueProp)] }

def c6GoodPage : NPage :=
  { id := "good", url := "u",
    properties := [("Name", NProp.titleProp ["T"]), ("Due", c6DueProp)] }

/-- **C6.** A fetched page with a missing title (or missing both due
dates) is rejected by `parseNotionPage` (`nil`, here `none`) in both
variants; the page loop of `main.go`'s `fetchNotionTasks` then skips it
and continues with the remaining pages — but the loop in `notion.go`
dereferences the nil task (`task.DueEnd` before the `task != nil`
guard), crashing the run (`none`) instead of continuing. -/
theorem c6_skip_and_fetch_loop_eval :
    NN.parseNotionPage c6BadPage = none ∧
    SL.parseNotionPage c6BadPage = none ∧
    (NN.collectParsedTasks [c6GoodPage, c6BadPage, c6GoodPage]).length = 2 ∧
    SL.collectTasks (mkTime 2024 6 20 0 0) [c6GoodPage, c6BadPage, c6GoodPage] =
      none := by decide

/-- **C7 (amended).** In the `main.go` entry points, zero tasks retained
after fetching and filtering means the delivery call is never made and
the process exits zero: the original `main` returns before `PostMessage`
when `filterTasks` retains nothing, and the cobra `Run` returns before
`PostMessage` when the fetch returns no tasks.  (The superseded
prototype in `unnamed/part_002` has no such guard — see the
counterexample.) -/
theorem c7_zero_retained_no_send (fetched : List NN.Task) (now : Nat)
    (h : NN.filterTasks fetched now = []) (tasks : List SL.Task) (now2 : Nat)
    (h2 : tasks = []) :
    NN.mainRun fetched now = NN.RunOutcome.exitZeroNoSend ∧
    SL.rootCmdRun tasks now2 = SL.SendOutcome.exitZeroNoSend := by
  constructor
  · simp [NN.mainRun, h]
  · simp [SL.rootCmdRun, h2]

def c7Now : Nat := mkTime 2024 6 10 9 0

def c7FarTask : NN.Task :=
  { id := "c7", title := "F", dueStart := none,
    dueEnd := some (mkTime 2024 7 30 0 0), priority := "", type := "",
    scheduleStatus := "", workload := "", memo := "", url := "u",
    notifyDays := 3 }

/-- Witness for C7: a single task due 50 days out is filtered away and
the run ends with no send and exit code zero; the cobra entry point on
an empty fetch likewise. -/
theorem c7_zero_retained_no_send_witness :
    NN.mainRun [c7FarTask] c7Now = NN.RunOutcome.exitZeroNoSend ∧
    SL.rootCmdRun [] c7Now = SL.SendOutcome.exitZeroNoSend :=
  c7_zero_retained_no_send [c7FarTask] c7Now (by decide) [] c7Now rfl

/-- Counterexample to C7 as stated: the prototype entry point in
`unnamed/part_002` (first document) has no zero-task guard, so with zero
retained tasks it still invokes `PostMessage` (with an empty block
list): the delivery call is made. -/
theorem c7_counterexample :
    SL.part002MainRun [] c7Now = SL.SendOutcome.posted [] := by decide
